import Mathlib

/-!
Verification development for the AI-to-database query mediation layer of the
AI-SaaS-Dashboard repository: a shallow embedding in Lean 4 of the validation
pipeline (`src/unnamed/part_018`, `src/lib/ai/validation/*`), the query
executor (`src/lib/ai/functions/query-database.ts`), the chart-type inference
(`src/unnamed/part_019`, `src/unnamed/part_020`) and the statistical
summarizer (second document of `src/lib/ai/functions/query-database.ts`),
together with theorems settling the specification claims about them.

Modelling conventions:
* JavaScript runtime values in result rows are modelled by `Value`
  (string / rational number / boolean / null); a missing object property
  (`undefined`) is modelled by `Option.none` at use sites.
* JS `NaN` is modelled by `Option.none` of the numeric coercion `jsNumber`.
* Machine floating point is modelled by `ℚ`; every comparison the source
  performs on a square root (`Math.sqrt`) is embedded as the equivalent
  comparison of squares, which is exact because `Real.sqrt` is monotone.
* The external relational store is modelled by a list of rows plus a failure
  flag; a raised store error is the `Except.error` case.
-/

namespace AIDash

/-- JS runtime values appearing in result rows and intent leaves. -/
inductive Value where
  | str (s : String)
  | num (q : ℚ)
  | bool (b : Bool)
  | null
deriving DecidableEq, Repr

/-- A result row: an association list from column names to values
(first binding wins, like a JS object). -/
abbrev Row := List (String × Value)

/-- Property access `row[k]`; `none` models `undefined`. -/
def rowGet (row : Row) (k : String) : Option Value :=
  (row.find? (fun p => p.1 == k)).map (·.2)

/-- The keys of a row, in object order (models `Object.keys`). -/
def rowKeys (row : Row) : List String :=
  row.map (·.1)

/-- Digit-string evaluation; `[]` evaluates to `0` (as JS `Number("")`). -/
def digitsVal (cs : List Char) : Option ℕ :=
  cs.foldl
    (fun acc c =>
      acc.bind (fun n => if c.isDigit then some (10 * n + (c.toNat - 48)) else none))
    (some 0)

/-- Numeric-literal strings: an optional minus sign followed by digits, with the
empty string evaluating to `0`.  This models the JS `Number(string)` coercion
for the integral literals that occur in this development; other strings are
`NaN` (`none`). -/
def numLitVal (s : String) : Option ℚ :=
  match s.toList with
  | '-' :: rest => if rest.isEmpty then none else (digitsVal rest).map (fun n => -(n : ℚ))
  | cs => (digitsVal cs).map (fun n => (n : ℚ))

/-- The JS `Number(x)` coercion applied to a possibly missing property;
`none` models `NaN` (`Number(undefined)` is `NaN`, `Number(null)` is `0`,
booleans coerce to `0`/`1`). -/
def jsNumber : Option Value → Option ℚ
  | none => none
  | some (.num q) => some q
  | some (.bool b) => some (if b then 1 else 0)
  | some .null => some 0
  | some (.str s) => numLitVal s

/-- Recogniser for `YYYY-MM-DD` ISO date strings.  This models which strings
`new Date(string)` parses to a valid date; other date syntaxes accepted by JS
are not needed by this development. -/
def isoDateLike (s : String) : Bool :=
  match s.toList with
  | [y1, y2, y3, y4, '-', m1, m2, '-', d1, d2] =>
    y1.isDigit && y2.isDigit && y3.isDigit && y4.isDigit &&
    m1.isDigit && m2.isDigit && d1.isDigit && d2.isDigit &&
    (10 * (m1.toNat - 48) + (m2.toNat - 48) ≥ 1) &&
    (10 * (m1.toNat - 48) + (m2.toNat - 48) ≤ 12) &&
    (10 * (d1.toNat - 48) + (d2.toNat - 48) ≥ 1) &&
    (10 * (d1.toNat - 48) + (d2.toNat - 48) ≤ 31)
  | _ => false

/-- Numeric key of an ISO date string, monotone in the date.  Models
`new Date(s).getTime()` up to order. -/
def isoDateVal (s : String) : ℚ :=
  match s.toList with
  | [y1, y2, y3, y4, '-', m1, m2, '-', d1, d2] =>
    ((1000 * (y1.toNat - 48) + 100 * (y2.toNat - 48) + 10 * (y3.toNat - 48) + (y4.toNat - 48))
        * 10000
      + (10 * (m1.toNat - 48) + (m2.toNat - 48)) * 100
      + (10 * (d1.toNat - 48) + (d2.toNat - 48)) : ℕ)
  | _ => 0

/-- Whether `new Date(x)` yields a valid date.  Numbers, booleans and `null`
coerce to a millisecond timestamp (always valid); a missing property
(`undefined`) and non-date strings are invalid. -/
def jsDateValid : Option Value → Bool
  | none => false
  | some (.num _) => true
  | some (.bool _) => true
  | some .null => true
  | some (.str s) => isoDateLike s

/-- `new Date(x).getTime()` as a sort key (model up to order; invalid dates,
whose `getTime()` is `NaN`, are keyed `0`). -/
def jsDateTime (v : Option Value) : ℚ :=
  match v with
  | some (.num q) => q
  | some (.str s) => if isoDateLike s then isoDateVal s else 0
  | some (.bool b) => if b then 1 else 0
  | some .null => 0
  | none => 0

/-- Stable insertion of an element into a list sorted by a rational key. -/
def insertByKey {α : Type} (key : α → ℚ) (a : α) : List α → List α
  | [] => [a]
  | b :: bs => if key a < key b then a :: b :: bs else b :: insertByKey key a bs

/-- Stable sort by a rational key (models `Array.prototype.sort` with a
numeric comparator). -/
def sortByKey {α : Type} (key : α → ℚ) : List α → List α
  | [] => []
  | a :: as => insertByKey key a (sortByKey key as)

/-- Ascending sort of rationals (models `[...values].sort((a, b) => a - b)`). -/
def sortQ (vs : List ℚ) : List ℚ :=
  sortByKey id vs

/-- Population mean of a list of values (`reduce / length`). -/
def qMean (vs : List ℚ) : ℚ :=
  vs.sum / (vs.length : ℚ)

/-- Population variance of a list of values; the source computes the standard
deviation `Math.sqrt (qVar vs)`. -/
def qVar (vs : List ℚ) : ℚ :=
  ((vs.map (fun v => (v - qMean vs) ^ 2)).sum) / (vs.length : ℚ)

/-- The numeric values a summariser statistic ranges over:
`data.map(row => Number(row[field])).filter(v => !isNaN(v))`. -/
def jsNums (data : List Row) (field : String) : List ℚ :=
  data.filterMap (fun row => jsNumber (rowGet row field))

/-! ### Summarizer (`summarizeData` and its statistics helpers) -/

inductive Direction where
  | up | down | stable
deriving DecidableEq, Repr

/-- Result of `analyzeTrend`. -/
structure TrendAnalysis where
  direction : Direction
  percentage : ℚ
  period : String
deriving DecidableEq, Repr

inductive Verdict where
  | increase | decrease | no_change
deriving DecidableEq, Repr

/-- Result of `comparePeriods`. -/
structure ComparisonResult where
  current : ℚ
  previous : Option ℚ
  difference : ℚ
  percentageChange : ℚ
  verdict : Verdict
deriving DecidableEq, Repr

/-- One flagged anomaly from `detectAnomalies`.  The source stores
`deviation = Math.sqrt deviationSq` and
`expectedRange = rangeMean ± 2 * Math.sqrt rangeVar`; the squares carry the
same information exactly, without needing `Real.sqrt`. -/
structure AnomalyRec where
  value : ℚ
  deviationSq : ℚ
  rangeMean : ℚ
  rangeVar : ℚ
deriving DecidableEq, Repr

/-- Result of `calculateInsights`.  `varianceVal` is the square of the
source's `standardDeviation`. -/
structure DataInsights where
  total : ℚ
  average : ℚ
  min : ℚ
  max : ℚ
  median : Option ℚ
  varianceVal : Option ℚ
deriving DecidableEq, Repr

/-- `analyzeTrend` from the summarizer document of `query-database.ts`. -/
def analyzeTrend (data : List Row) (valueField : String) (timeField : Option String) :
    TrendAnalysis :=
  if data.length < 2 then
    { direction := .stable, percentage := 0, period := "insufficient data" }
  else
    let sortedData :=
      match timeField with
      | some tf => sortByKey (fun r => jsDateTime (rowGet r tf)) data
      | none => data
    let firstValue := (jsNumber (rowGet (sortedData.headD []) valueField)).getD 0
    let lastValue := (jsNumber (rowGet (sortedData.getLastD []) valueField)).getD 0
    if firstValue = 0 then
      { direction := if 0 < lastValue then .up else .stable, percentage := 0
        period := "period" }
    else
      let change := ((lastValue - firstValue) / |firstValue|) * 100
      let absChange := |change|
      let direction : Direction :=
        if absChange < 5 then .stable else if 0 < change then .up else .down
      { direction := direction, percentage := absChange
        period := "from " ++ toString sortedData.length ++ " data points" }

/-- `comparePeriods` from the summarizer document of `query-database.ts`.
`previous = none` models the `null` argument. -/
def comparePeriods (current : List Row) (previous : Option (List Row))
    (valueField : String) : ComparisonResult :=
  let currentSum := (current.map (fun row => (jsNumber (rowGet row valueField)).getD 0)).sum
  let _currentAvg := currentSum / (current.length : ℚ)
  match previous with
  | none =>
    { current := currentSum, previous := none, difference := 0
      percentageChange := 0, verdict := .no_change }
  | some prev =>
    if prev.isEmpty then
      { current := currentSum, previous := none, difference := 0
        percentageChange := 0, verdict := .no_change }
    else
      let previousSum := (prev.map (fun row => (jsNumber (rowGet row valueField)).getD 0)).sum
      let _previousAvg := previousSum / (prev.length : ℚ)
      let diff := currentSum - previousSum
      let pctChange := if previousSum ≠ 0 then (diff / previousSum) * 100 else 0
      let verdict : Verdict :=
        if |pctChange| < 5 then .no_change
        else if 0 < pctChange then .increase
        else .decrease
      { current := currentSum, previous := some previousSum, difference := diff
        percentageChange := pctChange, verdict := verdict }

/-- `detectAnomalies` from the summarizer document of `query-database.ts`.
The source flags a row when `stdDev > 0` and `|v - mean| / stdDev > 2`; since
`Real.sqrt` is strictly monotone on nonnegatives this is exactly
`0 < variance ∧ 4 * variance < (v - mean)²`, which is how the test is
embedded (`threshold = 2`). -/
def detectAnomalies (data : List Row) (valueField : String) : List AnomalyRec :=
  let values := jsNums data valueField
  if values.length < 3 then
    []
  else
    let mean := qMean values
    let varAll := qVar values
    data.filterMap (fun row =>
      (jsNumber (rowGet row valueField)).bind (fun v =>
        if 0 < varAll ∧ 4 * varAll < (v - mean) ^ 2 then
          some { value := v, deviationSq := (v - mean) ^ 2 / varAll
                 rangeMean := mean, rangeVar := varAll }
        else none))

/-- `calculateInsights` from the summarizer document of `query-database.ts`. -/
def calculateInsights (data : List Row) (valueField : String) : DataInsights :=
  let values := jsNums data valueField
  if values.isEmpty then
    { total := 0, average := 0, min := 0, max := 0, median := none, varianceVal := none }
  else
    let sorted := sortQ values
    let total := values.sum
    let avg := total / (values.length : ℚ)
    let median :=
      if sorted.length % 2 = 0 then
        ((sorted.getD (sorted.length / 2 - 1) 0) + (sorted.getD (sorted.length / 2) 0)) / 2
      else
        sorted.getD (sorted.length / 2) 0
    let varianceVal := ((values.map (fun v => (v - avg) ^ 2)).sum) / (values.length : ℚ)
    { total := total, average := avg, min := sorted.headD 0
      max := sorted.getLastD 0, median := some median, varianceVal := some varianceVal }

inductive Tone where
  | neutral | insightful | actionable
deriving DecidableEq, Repr

inductive SummaryType where
  | trend | comparison | anomaly | summaryMode
deriving DecidableEq, Repr

/-- `SummarizeDataParams` (`summaryType`, `focusAreas`, `tone`, with the
data source already executed). -/
structure SummarizeParams where
  summaryType : SummaryType
  focusAreas : Option (List String)
  tone : Tone
deriving DecidableEq, Repr

/-- A fragment of a rendered narrative: literal template prose or an
interpolated number.  Number formatting (`toFixed`, `toLocaleString`,
`formatNumber`) is abstracted to the exact rational. -/
inductive Chunk where
  | lit (s : String)
  | q (x : ℚ)
deriving DecidableEq, Repr

/-- The statistics object a summary narrative renders. -/
inductive StatsCase where
  | noData
  | noNumeric
  | trend (t : TrendAnalysis)
  | comparison (c : ComparisonResult)
  | anomaly (as : List AnomalyRec)
  | insights (i : DataInsights)
deriving DecidableEq, Repr

/-- A rendered summary: the statistics it was rendered from plus the
narrative fragments. -/
structure SummaryOutput where
  stats : StatsCase
  text : List Chunk
deriving DecidableEq, Repr

/-- Focus-area suffix appended by the generators. -/
def focusSuffix (lead : String) (focusAreas : List String) : List Chunk :=
  if focusAreas.isEmpty then []
  else [.lit lead, .lit (String.intercalate ", " focusAreas), .lit "."]

/-- `generateTrendSummary`: tone picks the phrasing template; the numbers come
from the `TrendAnalysis` (template prose abbreviated to its lead words). -/
def generateTrendSummary (t : TrendAnalysis) (focusAreas : List String) (tone : Tone) :
    List Chunk :=
  let core : List Chunk :=
    match tone with
    | .actionable =>
      match t.direction with
      | .up => [.lit "Great progress! The metric showed a ", .q t.percentage,
                .lit "% upward trend over ", .lit t.period,
                .lit ". Consider capitalizing on this momentum."]
      | .down => [.lit "Attention needed: The metric declined by ", .q t.percentage,
                  .lit "% over ", .lit t.period,
                  .lit ". Investigate the factors and develop a recovery plan."]
      | .stable => [.lit "The metric has remained stable over ", .lit t.period,
                    .lit ". Look for opportunities to identify growth areas."]
    | .insightful =>
      match t.direction with
      | .up => [.lit "Analysis reveals a positive ", .q t.percentage,
                .lit "% upward trend across ", .lit t.period,
                .lit ". This growth pattern suggests effective strategies."]
      | .down => [.lit "A concerning ", .q t.percentage,
                  .lit "% downward trend emerges over ", .lit t.period,
                  .lit ". Understanding the drivers could reveal insights."]
      | .stable => [.lit "The data shows stability with minimal fluctuation over ",
                    .lit t.period, .lit ". This consistency may indicate a plateau."]
    | .neutral =>
      [.lit "Trend analysis shows a ",
       .lit (match t.direction with
             | .stable => "stable" | .up => "upward" | .down => "downward"),
       .lit " movement of ", .q t.percentage, .lit "% over ", .lit t.period, .lit "."]
  core ++ focusSuffix " Key focus areas include: " focusAreas

/-- `generateComparisonSummary` (template prose abbreviated; `previous || 0`
is rendered as `0` when previous is `null`). -/
def generateComparisonSummary (c : ComparisonResult) (focusAreas : List String)
    (tone : Tone) : List Chunk :=
  let prev := c.previous.getD 0
  let core : List Chunk :=
    match tone with
    | .actionable =>
      match c.verdict with
      | .increase => [.lit "Excellent! Current period shows ", .q c.current,
                      .lit " compared to ", .q prev, .lit " previously - a ",
                      .q |c.percentageChange|, .lit "% increase."]
      | .decrease => [.lit "Alert: Current period totals ", .q c.current,
                      .lit " versus ", .q prev, .lit " - a ",
                      .q |c.percentageChange|, .lit "% decrease."]
      | .no_change => [.lit "Results are consistent at ", .q c.current,
                       .lit " (previously ", .q prev, .lit ")."]
    | .insightful =>
      match c.verdict with
      | .increase => [.lit "Comparative analysis reveals a ", .q |c.percentageChange|,
                      .lit "% improvement from ", .q prev, .lit " to ", .q c.current,
                      .lit "."]
      | .decrease => [.lit "A ", .q |c.percentageChange|,
                      .lit "% decline is observed, dropping from ", .q prev,
                      .lit " to ", .q c.current, .lit "."]
      | .no_change => [.lit "Performance remains consistent with ", .q c.current,
                       .lit " in both periods."]
    | .neutral =>
      [.lit "Period comparison: ", .q c.current, .lit " (current) vs ", .q prev,
       .lit " (previous), representing a ", .q |c.percentageChange|, .lit "% ",
       .lit (match c.verdict with
             | .increase => "increase" | .decrease => "decrease"
             | .no_change => "no change"), .lit "."]
  core ++ focusSuffix " Focus areas: " focusAreas

/-- The fixed zero-anomaly sentence of `generateAnomalySummary` (verbatim). -/
def anomalyFixedSentence : String :=
  "No significant anomalies detected in the data. All values fall within expected ranges."

/-- Fragments rendered per anomaly (value, expected range as mean and
variance of the `mean ± 2σ` band, and the squared z-score standing for the
reported deviation). -/
def anomalyItemChunks (a : AnomalyRec) : List Chunk :=
  [.q a.value, .q a.rangeMean, .q a.rangeVar, .q a.deviationSq]

/-- `generateAnomalySummary`: the empty list renders the fixed sentence for
every tone; otherwise tone picks the framing around the same per-anomaly
numbers. -/
def generateAnomalySummary (anomalies : List AnomalyRec) (tone : Tone) : List Chunk :=
  if anomalies.isEmpty then
    [.lit anomalyFixedSentence]
  else
    let items := anomalies.flatMap anomalyItemChunks
    match tone with
    | .actionable =>
      [.lit "CRITICAL: ", .q (anomalies.length : ℚ),
       .lit " significant anomaly(ies) detected requiring immediate attention:"]
        ++ items ++ [.lit "Recommended action: Investigate the cause."]
    | .insightful =>
      [.lit "Analysis identified ", .q (anomalies.length : ℚ),
       .lit " notable outlier(s) in the dataset:"]
        ++ items ++ [.lit "These anomalies may indicate unusual events."]
    | .neutral =>
      [.q (anomalies.length : ℚ),
       .lit " data point(s) were identified as statistical outliers:"]
        ++ items ++ [.lit "These values fall outside the expected range."]

/-- `generateSummarySummary` (the insightful tone renders a coefficient of
variation derived from `standardDeviation / average`; its square
`varianceVal / average²` carries the same number exactly). -/
def generateSummarySummary (i : DataInsights) (focusAreas : List String)
    (tone : Tone) : List Chunk :=
  let core : List Chunk :=
    match tone with
    | .actionable =>
      [.lit "Key metrics overview: Total ", .q i.total, .lit " Average ", .q i.average,
       .lit " Range ", .q i.min, .lit " - ", .q i.max]
        ++ (match i.median with | some m => [.lit " Median ", .q m] | none => [])
        ++ (match i.varianceVal with | some v => [.lit " Variability ", .q v] | none => [])
        ++ [.lit " Action items follow."]
    | .insightful =>
      [.lit "Statistical summary of the dataset: total ", .q i.total,
       .lit ", average ", .q i.average, .lit ", range ", .q i.min, .lit " to ",
       .q i.max, .lit ", median ", .q (i.median.getD i.average)]
        ++ (match i.varianceVal with
            | some v => [.lit ", squared coefficient of variation ",
                         .q (v / i.average ^ 2 * 10000)]
            | none => [])
    | .neutral =>
      [.lit "Summary statistics: Total ", .q i.total, .lit " Average ", .q i.average,
       .lit " Minimum ", .q i.min, .lit " Maximum ", .q i.max]
        ++ (match i.median with | some m => [.lit " Median ", .q m] | none => [])
        ++ (match i.varianceVal with
            | some v => [.lit " Standard Deviation squared ", .q v] | none => [])
  core ++ focusSuffix " Review: " focusAreas

/-- The numeric fields of a data set: keys of the first row whose value in
every row is a number or `null` (a missing property is neither). -/
def numericFieldsOf (data : List Row) : List String :=
  (rowKeys (data.headD [])).filter (fun k =>
    data.all (fun row =>
      match rowGet row k with
      | some (.num _) => true
      | some .null => true
      | _ => false))

/-- `summarizeData`.  The source's `timeFields` filter wraps `new Date(...)`
in `try/catch`, but the `Date` constructor never throws, so every key of the
first row qualifies; the embedding reflects that directly. -/
def summarizeData (p : SummarizeParams) (data : List Row) : SummaryOutput :=
  if data.isEmpty then
    { stats := .noData, text := [.lit "No data available to generate a summary."] }
  else
    let numericFields := numericFieldsOf data
    if numericFields.isEmpty then
      { stats := .noNumeric
        text := [.lit "Unable to generate numerical summary - no numeric fields detected in the data."] }
    else
      let primaryValueField :=
        match p.focusAreas with
        | some (f :: _) => f
        | _ => numericFields.headD ""
      let timeFields := rowKeys (data.headD [])
      match p.summaryType with
      | .trend =>
        let t := analyzeTrend data primaryValueField timeFields.head?
        { stats := .trend t, text := generateTrendSummary t (p.focusAreas.getD []) p.tone }
      | .comparison =>
        let midpoint := data.length / 2
        let currentPeriod := data.drop midpoint
        let previousPeriod := data.take midpoint
        let c := comparePeriods currentPeriod (some previousPeriod) primaryValueField
        { stats := .comparison c
          text := generateComparisonSummary c (p.focusAreas.getD []) p.tone }
      | .anomaly =>
        let anomalies := detectAnomalies data primaryValueField
        { stats := .anomaly anomalies, text := generateAnomalySummary anomalies p.tone }
      | .summaryMode =>
        let insights := calculateInsights data primaryValueField
        { stats := .insights insights
          text := generateSummarySummary insights (p.focusAreas.getD []) p.tone }

/-! ### Generic string scanning helpers (substring search) -/

/-- Whether the second list starts with the first. -/
def leadsWith : List Char → List Char → Bool
  | [], _ => true
  | _ :: _, [] => false
  | p :: ps, c :: cs => p == c && leadsWith ps cs

/-- Whether `needle` occurs as a contiguous subsequence (models
`String.prototype.includes`). -/
def containsSeq (needle : List Char) : List Char → Bool
  | [] => needle.isEmpty
  | c :: cs => leadsWith needle (c :: cs) || containsSeq needle cs

/-! ### Resource whitelist (`src/lib/ai/validation/table-whitelist.ts`) -/

/-- Per-table configuration from `allowedTables`. -/
structure TableOperations where
  select : Bool
  aggregates : List String
deriving DecidableEq, Repr

/-- The static `allowedTables` registry. -/
def allowedTables : List (String × TableOperations) :=
  [("organizations", { select := true, aggregates := ["count"] }),
   ("profiles", { select := true, aggregates := ["count"] }),
   ("customers", { select := true, aggregates := ["count", "sum", "avg", "min", "max"] }),
   ("revenue", { select := true, aggregates := ["count", "sum", "avg", "min", "max"] }),
   ("activities", { select := true, aggregates := ["count", "sum", "avg", "min", "max"] }),
   ("audit_logs", { select := true, aggregates := ["count"] }),
   ("ai_usage_log", { select := true, aggregates := ["count", "sum"] }),
   ("user_preferences", { select := true, aggregates := ["count"] })]

/-- `SENSITIVE_COLUMNS`. -/
def SENSITIVE_COLUMNS : List String :=
  ["password", "secret", "token", "key", "credential", "private_key", "api_secret"]

/-- `RESTRICTED_TABLES`. -/
def RESTRICTED_TABLES : List String :=
  ["audit_logs", "ai_usage_log"]

/-- `isTableAllowed`. -/
def isTableAllowed (tableName : String) : Bool :=
  (allowedTables.find? (fun p => p.1 == tableName)).isSome

/-- `getAllowedColumns`: empty for unknown tables; the fixed three-column
allow-list for restricted tables; empty (meaning deny-list only) otherwise. -/
def getAllowedColumns (tableName : String) : List String :=
  if !isTableAllowed tableName then []
  else if RESTRICTED_TABLES.contains tableName then ["id", "created_at", "updated_at"]
  else []

/-- `getAllowedAggregates`. -/
def getAllowedAggregates (tableName : String) : List String :=
  match allowedTables.find? (fun p => p.1 == tableName) with
  | some p => p.2.aggregates
  | none => []

/-- `sanitizeColumnName`: strips characters outside `[A-Za-z0-9_]`, then
THROWS (modelled by `Except.error`) when the sanitized name still contains a
sensitive term (case-insensitively).  The source message quotes the column
name; the quotes are omitted here. -/
def sanitizeColumnName (column : String) : Except String String :=
  let sanitized := String.mk (column.toList.filter (fun c => c.isAlphanum || c == '_'))
  if SENSITIVE_COLUMNS.any
      (fun s => containsSeq s.toLower.toList sanitized.toLower.toList) then
    .error ("Column " ++ column ++ " is not accessible")
  else
    .ok sanitized

/-! ### Query executor (`src/lib/ai/functions/query-database.ts`, first document) -/

inductive Operator where
  | eq | ne | gt | lt | gte | lte | contains | inOp
deriving DecidableEq, Repr

/-- A filter value: a scalar or an array (for the `in` operator). -/
inductive FilterVal where
  | scalar (v : Value)
  | arr (vs : List Value)
deriving DecidableEq, Repr

structure Filter where
  column : String
  operator : Operator
  value : FilterVal
deriving DecidableEq, Repr

inductive AggFunc where
  | count | sum | avg | min | max
deriving DecidableEq, Repr

/-- The string name of an aggregate function (as it appears in intents). -/
def aggFuncName : AggFunc → String
  | .count => "count" | .sum => "sum" | .avg => "avg" | .min => "min" | .max => "max"

structure Aggregation where
  field : String
  function : AggFunc
deriving DecidableEq, Repr

inductive OrderDir where
  | asc | desc
deriving DecidableEq, Repr

structure OrderBy where
  field : String
  direction : OrderDir
deriving DecidableEq, Repr

/-- `QueryDatabaseParams` as consumed by the executor (the zod schema has no
`page`/`pageSize` field, but the executor destructures them from the raw
params object, so they are part of this shape). -/
structure QueryDatabaseParams where
  table : String
  filters : Option (List Filter) := none
  aggregations : Option (List Aggregation) := none
  groupBy : Option (List String) := none
  limit : Option ℕ := none
  orderBy : Option (List OrderBy) := none
  page : Option ℕ := none
  pageSize : Option ℕ := none
deriving DecidableEq, Repr

/-- JS truthiness of an optional numeric field (`undefined` and `0` falsy). -/
def jsTruthyNat (o : Option ℕ) : Bool :=
  o.getD 0 ≠ 0

/-- JS truthiness plus non-emptiness, as in `filters && filters.length > 0`. -/
def jsTruthyList {α : Type} (o : Option (List α)) : Bool :=
  match o with
  | some l => !l.isEmpty
  | none => false

/-- `String(v)` coercion used for group keys and `LIKE` patterns (the exact
JS decimal rendering of numbers is abstracted by the rational's `toString`). -/
def jsToString : Value → String
  | .str s => s
  | .num q => toString q
  | .bool b => if b then "true" else "false"
  | .null => "null"

/-- Ordering of store values under SQL comparison operators; comparisons
between differently typed values are not modelled (no claim exercises them). -/
def valueLt : Value → Value → Bool
  | .num a, .num b => a < b
  | .str a, .str b => decide (a < b)
  | _, _ => false

/-- Semantics of one translated filter predicate, following the fixed
operator map of `buildFilterConditions` (`eq→=`, `ne→<>`, comparisons,
`contains→ILIKE %v%`, `in→ membership`, wrapping a non-array `in` value in a
singleton).  SQL three-valued null logic is not modelled. -/
def evalFilter (row : Row) (f : Filter) : Bool :=
  match f.operator, f.value with
  | .eq, .scalar v => rowGet row f.column == some v
  | .ne, .scalar v =>
    match rowGet row f.column with
    | some rv => rv != v
    | none => false
  | .gt, .scalar v =>
    match rowGet row f.column with
    | some rv => valueLt v rv
    | none => false
  | .lt, .scalar v =>
    match rowGet row f.column with
    | some rv => valueLt rv v
    | none => false
  | .gte, .scalar v =>
    match rowGet row f.column with
    | some rv => valueLt v rv || rv == v
    | none => false
  | .lte, .scalar v =>
    match rowGet row f.column with
    | some rv => valueLt rv v || rv == v
    | none => false
  | .contains, .scalar v =>
    match rowGet row f.column with
    | some (.str s) => containsSeq (jsToString v).toLower.toList s.toLower.toList
    | _ => false
  | .inOp, .arr vs =>
    match rowGet row f.column with
    | some rv => vs.contains rv
    | none => false
  | .inOp, .scalar v => rowGet row f.column == some v
  | _, .arr _ => false

/-- Which alias an aggregate projection gets: `executeSimpleQuery` uses
`field_function`, `executeQueryWithAggregations` uses `field_agg`. -/
inductive AliasStyle where
  | byFunction | aggSuffix
deriving DecidableEq, Repr

def aggAliasOf (style : AliasStyle) (a : Aggregation) : String :=
  match style with
  | .byFunction => a.field ++ "_" ++ aggFuncName a.function
  | .aggSuffix => a.field ++ "_agg"

/-- The parameterized read query a source function hands to the store:
table, the optional unconditional tenant predicate, the ANDed filter
predicates, aggregate projections, grouping, ordering and limit/offset. -/
structure QuerySpec where
  table : String
  orgCond : Option String
  filters : List Filter
  aggSelects : List Aggregation
  aliasStyle : AliasStyle
  groupBy : List String
  orderBy : List OrderBy
  limit : Option ℕ
  offset : ℕ
deriving DecidableEq, Repr

/-- SQL value of one aggregate over a row set (aggregates skip non-numeric
cells; `coalesce` reflects the `COALESCE(…, 0)` wrappers the aggregation
path puts around `SUM`/`AVG`). -/
def evalAggValue (coalesce : Bool) (rows : List Row) (a : Aggregation) : Value :=
  let values := rows.filterMap (fun r =>
    match rowGet r a.field with
    | some (.num q) => some q
    | _ => none)
  match a.function with
  | .count =>
    .num ((rows.countP (fun r =>
      match rowGet r a.field with
      | some .null => false
      | none => false
      | some _ => true) : ℕ) : ℚ)
  | .sum =>
    if values.isEmpty then (if coalesce then .num 0 else .null) else .num values.sum
  | .avg =>
    if values.isEmpty then (if coalesce then .num 0 else .null)
    else .num (values.sum / (values.length : ℚ))
  | .min =>
    match sortQ values with
    | [] => .null
    | v :: _ => .num v
  | .max =>
    match (sortQ values).getLast? with
    | none => .null
    | some v => .num v

/-- Store-side evaluation of a `QuerySpec` over the selected table's rows:
filter by the tenant predicate and the ANDed filters, then project aggregates
and/or group columns, then apply offset/limit.  Row ordering (`orderBy`) is
not modelled; no claim depends on it. -/
def evalSpec (spec : QuerySpec) (rows : List Row) : List Row :=
  let matched := rows.filter (fun r =>
    (match spec.orgCond with
     | some org => rowGet r "org_id" == some (.str org)
     | none => true)
    && spec.filters.all (fun f => evalFilter r f))
  let coalesce := spec.aliasStyle == .aggSuffix
  let projected :=
    if spec.aggSelects.isEmpty && spec.groupBy.isEmpty then matched
    else if spec.groupBy.isEmpty then
      [spec.aggSelects.map (fun a => (aggAliasOf spec.aliasStyle a, evalAggValue coalesce matched a))]
    else
      let keyOf := fun (r : Row) => spec.groupBy.map (fun c => rowGet r c)
      let keys := (matched.map keyOf).dedup
      keys.map (fun key =>
        let grp := matched.filter (fun r => keyOf r == key)
        ((spec.groupBy.zip key).filterMap (fun p => p.2.map (fun v => (p.1, v))))
          ++ spec.aggSelects.map (fun a => (aggAliasOf spec.aliasStyle a, evalAggValue coalesce grp a)))
  match spec.limit with
  | some n => (projected.drop spec.offset).take n
  | none => projected.drop spec.offset

/-- The external tenant-scoped store: the selected table's rows plus a flag
modelling a raised `StoreExecutionError` during execution. -/
structure Store where
  rows : List Row
  failing : Bool

/-- Running a built query against the store; a store failure is a raised
exception (`Except.error`). -/
def runStore (store : Store) (spec : QuerySpec) : Except String (List Row) :=
  if store.failing then .error "store error" else .ok (evalSpec spec store.rows)

/-- `createAggregationResult`. -/
structure AggregationResult where
  field : String
  value : ℚ
  function : AggFunc
deriving DecidableEq, Repr

/-- Pagination metadata (`QueryResult.pagination`). -/
structure Pagination where
  page : ℕ
  pageSize : ℕ
  totalRows : ℕ
  totalPages : ℕ
  hasNextPage : Bool
  hasPreviousPage : Bool
deriving DecidableEq, Repr

/-- `calculatePagination` (`src/lib/ai/cost/limits.ts`, lines 608-623):
`totalPages = Math.ceil(totalRows / pageSize)` with `hasNextPage` iff
`page < totalPages`.  For `pageSize > 0` the natural ceiling division
`(totalRows + pageSize - 1) / pageSize` is that ceiling exactly
(`pageSize = 0`, which in JS yields an infinite `totalPages`, is not
modelled). -/
def calculatePagination (totalRows page pageSize : ℕ) : Pagination :=
  let totalPages := (totalRows + pageSize - 1) / pageSize
  { page := page, pageSize := pageSize, totalRows := totalRows
    totalPages := totalPages
    hasNextPage := decide (page < totalPages)
    hasPreviousPage := decide (1 < page) }

/-- `QueryResult` (timing metadata elided; `cached` is always `false`). -/
structure QueryResult where
  data : List Row
  rowCount : ℕ
  cached : Bool
  aggregations : List AggregationResult
  groupedBy : List (String × List Row)
  pagination : Option Pagination
deriving DecidableEq, Repr

/-- The group key `groupBy.map(col => String(row[col])).join("::")`. -/
def groupKeyOf (groupBy : List String) (row : Row) : String :=
  String.intercalate "::" (groupBy.map (fun c =>
    match rowGet row c with
    | some v => jsToString v
    | none => "undefined"))

/-- Insert a row into the insertion-ordered `groupedData` association list. -/
def addToGroup (acc : List (String × List Row)) (k : String) (row : Row) :
    List (String × List Row) :=
  if (acc.find? (fun p => p.1 == k)).isSome then
    acc.map (fun p => if p.1 == k then (p.1, p.2 ++ [row]) else p)
  else
    acc ++ [(k, [row])]

/-- The `groupedData` map built by `executeQueryWithAggregations`. -/
def groupedDataOf (groupBy : List String) (results : List Row) :
    List (String × List Row) :=
  results.foldl (fun acc row => addToGroup acc (groupKeyOf groupBy row) row) []

/-- `countRecords`: a tenant-scoped `COUNT(*)` with its own `try/catch`
returning `0` on store failure.  The `Store` already denotes the selected
table, so the table name argument only names it. -/
def countRecords (_table : String) (orgId : String) (store : Store) : ℕ :=
  if store.failing then 0
  else (store.rows.filter (fun r => rowGet r "org_id" == some (.str orgId))).length

/-- The query built by `executeQueryWithAggregations` (lines 205-264 of
`query-database.ts`).  Note: unlike `executeSimpleQuery` and
`executePaginatedQuery`, this builder attaches NO `org_id` predicate
(`orgCond := none` — the source chain is
`db.selectFrom(table).$if(filters…)` with no `.where('org_id', …)`), and the
page/pageSize branch applies the requested `pageSize` without clamping. -/
def buildAggQuerySpec (params : QueryDatabaseParams) : QuerySpec :=
  { table := params.table
    orgCond := none
    filters := if jsTruthyList params.filters then params.filters.getD [] else []
    aggSelects :=
      if jsTruthyList params.aggregations then params.aggregations.getD [] else []
    aliasStyle := .aggSuffix
    groupBy := if jsTruthyList params.groupBy then params.groupBy.getD [] else []
    orderBy := if jsTruthyList params.orderBy then params.orderBy.getD [] else []
    limit :=
      if jsTruthyNat params.page && jsTruthyNat params.pageSize then
        some (params.pageSize.getD 0)
      else if jsTruthyNat params.limit then
        some (Nat.min (params.limit.getD 0) 1000)
      else none
    offset :=
      if jsTruthyNat params.page && jsTruthyNat params.pageSize then
        (params.page.getD 0 - 1) * params.pageSize.getD 0
      else 0 }

/-- `executeQueryWithAggregations` (the body `queryDatabase` delegates to).
There is no `try/catch` around the store execution in this function — the
catch block printed after its closing brace in the source file is orphan,
unreachable code — so a store error propagates as `Except.error`. -/
def executeQueryWithAggregations (params : QueryDatabaseParams) (orgId : String)
    (store : Store) : Except String QueryResult :=
  let spec := buildAggQuerySpec params
  match runStore store spec with
  | .error e => .error e
  | .ok results =>
    let aggs := params.aggregations.getD []
    let aggResults :=
      if jsTruthyList params.aggregations && !results.isEmpty then
        aggs.filterMap (fun a =>
          match rowGet (results.headD []) (a.field ++ "_agg") with
          | some (.num q) => some { field := a.field, value := q, function := a.function }
          | _ => none)
      else []
    let groupedData :=
      if jsTruthyList params.groupBy && !results.isEmpty then
        groupedDataOf (params.groupBy.getD []) results
      else []
    let pagination :=
      if jsTruthyNat params.page && jsTruthyNat params.pageSize then
        some (calculatePagination
          (if jsTruthyList params.aggregations then results.length
           else countRecords params.table orgId store)
          (params.page.getD 0) (params.pageSize.getD 0))
      else none
    .ok { data := results, rowCount := results.length, cached := false
          aggregations := aggResults, groupedBy := groupedData
          pagination := pagination }

/-- `queryDatabase` (lines 198-203): its defined body delegates directly to
`executeQueryWithAggregations`. -/
def queryDatabase (params : QueryDatabaseParams) (orgId : String) (store : Store) :
    Except String QueryResult :=
  executeQueryWithAggregations params orgId store

/-- The query built by `executeSimpleQuery` (lines 65-144): the tenant
predicate `org_id = orgId` is attached unconditionally, filters are ANDed
with it, aggregates use the `field_function` aliases and `limit` is clamped
to 1000. -/
def buildSimpleQuerySpec (params : QueryDatabaseParams) (orgId : String) : QuerySpec :=
  { table := params.table
    orgCond := some orgId
    filters := if jsTruthyList params.filters then params.filters.getD [] else []
    aggSelects :=
      if jsTruthyList params.aggregations then params.aggregations.getD [] else []
    aliasStyle := .byFunction
    groupBy := if jsTruthyList params.groupBy then params.groupBy.getD [] else []
    orderBy := if jsTruthyList params.orderBy then params.orderBy.getD [] else []
    limit := if jsTruthyNat params.limit then some (Nat.min (params.limit.getD 0) 1000) else none
    offset := 0 }

/-- `executeSimpleQuery` (reachable only from the orphan dispatch block). -/
def executeSimpleQuery (params : QueryDatabaseParams) (orgId : String)
    (store : Store) : Except String QueryResult :=
  let spec := buildSimpleQuerySpec params orgId
  match runStore store spec with
  | .error e => .error e
  | .ok results =>
    let aggs := params.aggregations.getD []
    let aggResults :=
      if jsTruthyList params.aggregations && !results.isEmpty then
        aggs.filterMap (fun a =>
          match rowGet (results.headD []) (a.field ++ "_" ++ aggFuncName a.function) with
          | some (.num q) => some { field := a.field, value := q, function := a.function }
          | _ => none)
      else []
    .ok { data := results, rowCount := results.length, cached := false
          aggregations := aggResults, groupedBy := [], pagination := none }

/-- The effective page size of `executePaginatedQuery`
(`Math.min(pageSize ?? 50, 100)` — destructuring defaults apply only to a
missing field). -/
def paginatedPageSize (params : QueryDatabaseParams) : ℕ :=
  Nat.min (params.pageSize.getD 50) 100

/-- The data query built by `executePaginatedQuery` (lines 146-196): tenant
predicate attached, `pageSize` clamped to 100,
`offset = (page - 1) * pageSize`. -/
def buildPaginatedSpec (params : QueryDatabaseParams) (orgId : String) : QuerySpec :=
  let page := params.page.getD 1
  let pageSize := paginatedPageSize params
  { table := params.table
    orgCond := some orgId
    filters := if jsTruthyList params.filters then params.filters.getD [] else []
    aggSelects := []
    aliasStyle := .byFunction
    groupBy := []
    orderBy := if jsTruthyList params.orderBy then params.orderBy.getD [] else []
    limit := some pageSize
    offset := (page - 1) * pageSize }

/-- `executePaginatedQuery`: the auxiliary count query (same base predicates)
feeds `calculatePagination`; no `catch` exists in this function itself. -/
def executePaginatedQuery (params : QueryDatabaseParams) (orgId : String)
    (store : Store) : Except String QueryResult :=
  if store.failing then .error "store error"
  else
    let page := params.page.getD 1
    let pageSize := paginatedPageSize params
    let totalRows := (store.rows.filter (fun r =>
      (rowGet r "org_id" == some (.str orgId))
      && (if jsTruthyList params.filters then params.filters.getD [] else []).all
           (fun f => evalFilter r f))).length
    let results := evalSpec (buildPaginatedSpec params orgId) store.rows
    .ok { data := results, rowCount := results.length, cached := false
          aggregations := [], groupedBy := []
          pagination := some (calculatePagination totalRows page pageSize) }

/-! ### JSON-like values (the `unknown` params an intent arrives as) -/

/-- A raw intent object as passed by the orchestrator (JS `unknown`). -/
inductive JValue where
  | str (s : String)
  | num (q : ℚ)
  | bool (b : Bool)
  | null
  | arr (elems : List JValue)
  | obj (fields : List (String × JValue))

/-- Property lookup on an object's field list. -/
def jLookup (fs : List (String × JValue)) (k : String) : Option JValue :=
  (fs.find? (fun p => p.1 == k)).map (·.2)

/-- Property access `v[k]` (`undefined` when `v` is not an object). -/
def jGet : JValue → String → Option JValue
  | .obj fs, k => jLookup fs k
  | _, _ => none

/-- JS truthiness of a possibly missing value. -/
def jsTruthyJ : Option JValue → Bool
  | none => false
  | some (.str s) => s ≠ ""
  | some (.num q) => q ≠ 0
  | some (.bool b) => b
  | some .null => false
  | some (.arr _) => true
  | some (.obj _) => true

/-! ### SQL-injection pattern scan (`SQL_INJECTION_PATTERNS` of `part_018`)

Each regex is embedded as an explicit scanner; `\b` is the JS word boundary
(wordness of the adjacent characters differs, out-of-bounds counting as
non-word), and the `/i` flag is modelled by scanning the lowercased string. -/

def isWordChar (c : Char) : Bool :=
  c.isAlphanum || c == '_'

def optWordChar : Option Char → Bool
  | some c => isWordChar c
  | none => false

/-- Occurrence of `kw` preceded by a `\b` boundary (`p` is the character just
before the scan position). -/
def kwScan (kw : List Char) : Option Char → List Char → Bool
  | _, [] => false
  | p, c :: rest =>
    (leadsWith kw (c :: rest) && (optWordChar p != isWordChar c))
    || kwScan kw (some c) rest

/-- Keywords of the first pattern
`/(\b)(select|insert|update|delete|drop|truncate|alter|create|exec|execute|union|join|--|\/\*)/i`. -/
def SQL_KEYWORDS : List String :=
  ["select", "insert", "update", "delete", "drop", "truncate", "alter", "create",
   "exec", "execute", "union", "join", "--", "/*"]

/-- `\s+\d+=\d+` at the start of the list. -/
def tautAfter : List Char → Bool
  | [] => false
  | c :: rest =>
    if c.isWhitespace then
      match rest.dropWhile (·.isWhitespace) with
      | d :: rest3 =>
        if d.isDigit then
          match rest3.dropWhile (·.isDigit) with
          | '=' :: e :: _ => e.isDigit
          | _ => false
        else false
      | [] => false
    else false

/-- Second pattern `/(\b)(or\s+\d+=\d+|and\s+\d+=\d+)/i`. -/
def orAndScan : Option Char → List Char → Bool
  | _, [] => false
  | p, c :: rest =>
    (!optWordChar p && leadsWith ['o', 'r'] (c :: rest) && tautAfter ((c :: rest).drop 2))
    || (!optWordChar p && leadsWith ['a', 'n', 'd'] (c :: rest) && tautAfter ((c :: rest).drop 3))
    || orAndScan (some c) rest

/-- Quote-like characters of the third pattern (single quote, double quote,
backquote — written by code point — and semicolon). -/
def quoteLikeChar (c : Char) : Bool :=
  c.toNat == 39 || c.toNat == 34 || c.toNat == 96 || c == ';'

/-- Third pattern: two quote-like characters with no newline between
(`.` in `/(['"`;].*?['"`;])/` does not cross line breaks). -/
def quotePairScan (seen : Bool) : List Char → Bool
  | [] => false
  | c :: cs =>
    if c == '\n' || c == '\r' then quotePairScan false cs
    else if quoteLikeChar c then (if seen then true else quotePairScan true cs)
    else quotePairScan seen cs

/-- `exec` followed by whitespace (part of the fourth pattern
`/(\b)(xp_|sp_|exec\s+)/i`). -/
def execSpaceScan : Option Char → List Char → Bool
  | _, [] => false
  | p, c :: rest =>
    (!optWordChar p && leadsWith ['e', 'x', 'e', 'c'] (c :: rest) &&
      (match (c :: rest).drop 4 with
       | d :: _ => d.isWhitespace
       | [] => false))
    || execSpaceScan (some c) rest

def isHexLower (c : Char) : Bool :=
  c.isDigit || (97 ≤ c.toNat && c.toNat ≤ 102)

/-- Fifth pattern `/(\b)(0x[0-9a-fA-F]+)/i` (scanned on the lowercase copy). -/
def hexLitScan : Option Char → List Char → Bool
  | _, [] => false
  | p, c :: rest =>
    (!optWordChar p && c == '0' &&
      (match rest with
       | x :: h :: _ => x == 'x' && isHexLower h
       | _ => false))
    || hexLitScan (some c) rest

/-- `containsSqlInjection` for one string leaf. -/
def containsSqlInjection (s : String) : Bool :=
  let cs := s.toLower.toList
  SQL_KEYWORDS.any (fun k => kwScan k.toList none cs)
  || orAndScan none cs
  || quotePairScan false cs
  || kwScan ['x', 'p', '_'] none cs
  || kwScan ['s', 'p', '_'] none cs
  || execSpaceScan none cs
  || hexLitScan none cs

mutual

/-- Number of string leaves flagged by `checkSqlInjection`, walking objects
and arrays recursively (non-string scalars are never flagged). -/
def sqlInjectionHits : JValue → ℕ
  | .str s => if containsSqlInjection s then 1 else 0
  | .num _ => 0
  | .bool _ => 0
  | .null => 0
  | .arr es => sqlInjectionHitsList es
  | .obj fs => sqlInjectionHitsFields fs

def sqlInjectionHitsList : List JValue → ℕ
  | [] => 0
  | v :: vs => sqlInjectionHits v + sqlInjectionHitsList vs

def sqlInjectionHitsFields : List (String × JValue) → ℕ
  | [] => 0
  | (_, v) :: fs => sqlInjectionHits v + sqlInjectionHitsFields fs

end

/-! ### Validation pipeline (`src/unnamed/part_018`) -/

inductive ValidationStage where
  | schema | table_whitelist | column_validation | rls_context | sql_injection | passed
deriving DecidableEq, Repr

structure ValidationError where
  stage : ValidationStage
  message : String
deriving DecidableEq, Repr

inductive Role where
  | admin | member
deriving DecidableEq, Repr

/-- `ValidationContext`; a missing `orgId` is the empty string (JS falsy). -/
structure ValidationContext where
  orgId : String
  userId : Option String := none
  role : Option Role := none
deriving DecidableEq, Repr

structure FullValidationResult where
  success : Bool
  data : Option JValue
  stage : ValidationStage
  errors : List ValidationError
  warnings : Option (List String)

/-- Options of `validateQuery` (defaults `abortEarly = true`,
`stripUnknown = true`). -/
structure ValidateOptions where
  abortEarly : Option Bool := none
  stripUnknown : Option Bool := none
deriving DecidableEq, Repr

def defaultOpts : ValidateOptions := {}

/-- The UUID shape `8-4-4-4-12` hex, case-insensitive (the `uuidRegex` of
`validateRLSContext`). -/
def isUuid (s : String) : Bool :=
  let parts := s.splitOn "-"
  (parts.map (·.length) == [8, 4, 4, 4, 12])
  && parts.all (fun p => p.toList.all (fun c =>
       c.isDigit || (97 ≤ c.toNat && c.toNat ≤ 102) || (65 ≤ c.toNat && c.toNat ≤ 70)))

/-- `validateRLSContext` (lines 100-121): an error when `orgId` is falsy, and
an error when it is truthy but not UUID-shaped. -/
def validateRLSContext (ctx : ValidationContext) : List ValidationError :=
  (if ctx.orgId = "" then
    [{ stage := .rls_context
       message := "Organization ID (org_id) is required for RLS enforcement" }]
   else [])
  ++ (if ctx.orgId ≠ "" && !isUuid ctx.orgId then
        [{ stage := .rls_context, message := "Invalid organization ID format" }]
      else [])

/-- `checkSqlInjection` (lines 65-98), abstracting the per-leaf path in the
message. -/
def checkSqlInjection (params : JValue) : List ValidationError :=
  List.replicate (sqlInjectionHits params)
    { stage := .sql_injection, message := "Potential SQL injection detected" }

/-! #### Schema stage (zod `queryDatabaseSchema` of `src/lib/ai/schema.ts`) -/

/-- The `z.enum` of table names. -/
def tableEnum : List String :=
  ["organizations", "profiles", "customers", "revenue", "activities",
   "audit_logs", "ai_usage_log", "user_preferences"]

def parseOperator : String → Option Operator
  | "eq" => some .eq | "ne" => some .ne | "gt" => some .gt | "lt" => some .lt
  | "gte" => some .gte | "lte" => some .lte | "contains" => some .contains
  | "in" => some .inOp
  | _ => none

def operatorName : Operator → String
  | .eq => "eq" | .ne => "ne" | .gt => "gt" | .lt => "lt"
  | .gte => "gte" | .lte => "lte" | .contains => "contains" | .inOp => "in"

def parseAggFunc : String → Option AggFunc
  | "count" => some .count | "sum" => some .sum | "avg" => some .avg
  | "min" => some .min | "max" => some .max
  | _ => none

/-- `filterSchema`'s value union:
string | number | boolean | null | string[] | number[]. -/
def parseFilterValue : JValue → Option FilterVal
  | .str s => some (.scalar (.str s))
  | .num q => some (.scalar (.num q))
  | .bool b => some (.scalar (.bool b))
  | .null => some (.scalar .null)
  | .arr es =>
    if es.all (fun e => match e with | .str _ => true | _ => false) then
      some (.arr (es.filterMap (fun e => match e with | .str s => some (Value.str s) | _ => none)))
    else if es.all (fun e => match e with | .num _ => true | _ => false) then
      some (.arr (es.filterMap (fun e => match e with | .num q => some (Value.num q) | _ => none)))
    else none
  | .obj _ => none

/-- Combine two zod field results, accumulating all error messages. -/
def collect2 {α β : Type} :
    Except (List String) α → Except (List String) β → Except (List String) (α × β)
  | .ok a, .ok b => .ok (a, b)
  | .error e1, .error e2 => .error (e1 ++ e2)
  | .error e, .ok _ => .error e
  | .ok _, .error e => .error e

def collectList {α : Type} : List (Except (List String) α) → Except (List String) (List α)
  | [] => .ok []
  | x :: xs =>
    match collect2 x (collectList xs) with
    | .ok (a, rest) => .ok (a :: rest)
    | .error e => .error e

/-- `filterSchema`: nonempty `column` string, an operator from the enum, a
union-typed `value`. -/
def parseFilterJ (v : JValue) : Except (List String) Filter :=
  match v with
  | .obj fs =>
    let colR : Except (List String) String :=
      match jLookup fs "column" with
      | some (.str s) => if s = "" then .error ["Column name is required"] else .ok s
      | _ => .error ["Field column: expected string"]
    let opR : Except (List String) Operator :=
      match jLookup fs "operator" with
      | some (.str s) =>
        match parseOperator s with
        | some op => .ok op
        | none => .error ["Operator must be one of the allowed set"]
      | _ => .error ["Field operator: expected string"]
    let valR : Except (List String) FilterVal :=
      match jLookup fs "value" with
      | some jv =>
        match parseFilterValue jv with
        | some fv => .ok fv
        | none => .error ["Field value: invalid union member"]
      | none => .error ["Field value: Required"]
    match collect2 colR (collect2 opR valR) with
    | .ok (c, op, fv) => .ok { column := c, operator := op, value := fv }
    | .error e => .error e
  | _ => .error ["Filter must be an object"]

/-- `aggregationSchema`. -/
def parseAggJ (v : JValue) : Except (List String) Aggregation :=
  match v with
  | .obj fs =>
    let fieldR : Except (List String) String :=
      match jLookup fs "field" with
      | some (.str s) => if s = "" then .error ["Aggregation field is required"] else .ok s
      | _ => .error ["Field field: expected string"]
    let fnR : Except (List String) AggFunc :=
      match jLookup fs "function" with
      | some (.str s) =>
        match parseAggFunc s with
        | some fn => .ok fn
        | none => .error ["Function must be one of the allowed set"]
      | _ => .error ["Field function: expected string"]
    match collect2 fieldR fnR with
    | .ok (f, fn) => .ok { field := f, function := fn }
    | .error e => .error e
  | _ => .error ["Aggregation must be an object"]

/-- `orderBySchema`. -/
def parseOrderByJ (v : JValue) : Except (List String) OrderBy :=
  match v with
  | .obj fs =>
    let fieldR : Except (List String) String :=
      match jLookup fs "field" with
      | some (.str s) => if s = "" then .error ["Order by field is required"] else .ok s
      | _ => .error ["Field field: expected string"]
    let dirR : Except (List String) OrderDir :=
      match jLookup fs "direction" with
      | some (.str "asc") => .ok .asc
      | some (.str "desc") => .ok .desc
      | _ => .error ["Direction must be asc or desc"]
    match collect2 fieldR dirR with
    | .ok (f, d) => .ok { field := f, direction := d }
    | .error e => .error e
  | _ => .error ["OrderBy must be an object"]

/-- `queryDatabaseSchema.safeParse` with unknown keys stripped.  `page` and
`pageSize` are not part of the schema, so the parsed params never carry them.
Non-integral `limit` numbers (which zod would accept) are not modelled. -/
def parseQueryParams (v : JValue) : Except (List String) QueryDatabaseParams :=
  match v with
  | .obj fs =>
    let tableR : Except (List String) String :=
      match jLookup fs "table" with
      | some (.str t) => if tableEnum.contains t then .ok t else .error ["Invalid table name"]
      | some _ => .error ["Invalid table name"]
      | none => .error ["Field table: Required"]
    let filtersR : Except (List String) (Option (List Filter)) :=
      match jLookup fs "filters" with
      | none => .ok none
      | some (.arr es) => (collectList (es.map parseFilterJ)).map some
      | some _ => .error ["Field filters: expected array"]
    let aggsR : Except (List String) (Option (List Aggregation)) :=
      match jLookup fs "aggregations" with
      | none => .ok none
      | some (.arr es) => (collectList (es.map parseAggJ)).map some
      | some _ => .error ["Field aggregations: expected array"]
    let groupByR : Except (List String) (Option (List String)) :=
      match jLookup fs "groupBy" with
      | none => .ok none
      | some (.arr es) =>
        if es.all (fun e => match e with | .str _ => true | _ => false) then
          .ok (some (es.filterMap (fun e => match e with | .str s => some s | _ => none)))
        else .error ["Field groupBy: expected array of strings"]
      | some _ => .error ["Field groupBy: expected array"]
    let limitR : Except (List String) (Option ℕ) :=
      match jLookup fs "limit" with
      | none => .ok none
      | some (.num q) =>
        if 1 ≤ q ∧ q ≤ 1000 ∧ q.den = 1 then .ok (some q.num.toNat)
        else .error ["Limit must be between 1 and 1000"]
      | some _ => .error ["Field limit: expected number"]
    let orderByR : Except (List String) (Option (List OrderBy)) :=
      match jLookup fs "orderBy" with
      | none => .ok none
      | some (.arr es) => (collectList (es.map parseOrderByJ)).map some
      | some _ => .error ["Field orderBy: expected array"]
    match collect2 tableR (collect2 filtersR (collect2 aggsR
        (collect2 groupByR (collect2 limitR orderByR)))) with
    | .ok (t, f, a, g, l, o) =>
      .ok { table := t, filters := f, aggregations := a, groupBy := g
            limit := l, orderBy := o, page := none, pageSize := none }
    | .error e => .error e
  | _ => .error ["Expected object"]

def encodeValue : Value → JValue
  | .str s => .str s
  | .num q => .num q
  | .bool b => .bool b
  | .null => .null

def encodeFilterVal : FilterVal → JValue
  | .scalar v => encodeValue v
  | .arr vs => .arr (vs.map encodeValue)

def encodeFilter (f : Filter) : JValue :=
  .obj [("column", .str f.column), ("operator", .str (operatorName f.operator)),
        ("value", encodeFilterVal f.value)]

def encodeAgg (a : Aggregation) : JValue :=
  .obj [("field", .str a.field), ("function", .str (aggFuncName a.function))]

def encodeOrderBy (o : OrderBy) : JValue :=
  .obj [("field", .str o.field),
        ("direction", .str (match o.direction with | .asc => "asc" | .desc => "desc"))]

/-- The sanitized (unknown-stripped) intent object the schema stage hands
downstream. -/
def encodeParsed (p : QueryDatabaseParams) : JValue :=
  .obj ([("table", JValue.str p.table)]
    ++ (match p.filters with
        | some fs => [("filters", JValue.arr (fs.map encodeFilter))]
        | none => [])
    ++ (match p.aggregations with
        | some as => [("aggregations", JValue.arr (as.map encodeAgg))]
        | none => [])
    ++ (match p.groupBy with
        | some gs => [("groupBy", JValue.arr (gs.map JValue.str))]
        | none => [])
    ++ (match p.limit with
        | some l => [("limit", JValue.num (l : ℚ))]
        | none => [])
    ++ (match p.orderBy with
        | some os => [("orderBy", JValue.arr (os.map encodeOrderBy))]
        | none => []))

/-! #### The pipeline body (`validateQuery`, lines 123-230) -/

/-- `sanitizeColumnName` applied to a raw filter column as JS executes it:
a non-string column (including a missing one) makes `column.replace` raise a
`TypeError`. -/
def sanitizeColumnArg : Option JValue → Except String String
  | some (.str s) => sanitizeColumnName s
  | _ => .error "TypeError: column.replace is not a function"

/-- `validateColumnAccess` (table-whitelist.ts, lines 114-133) applied to
`filters.map(f => f.column)`: a column is invalid when sanitization throws
(caught here), or — dead in practice — when a nonempty allow-list misses it
on a non-restricted table. -/
def validateColumnAccessJ (tableName : String) (columns : List (Option JValue)) :
    List (Option JValue) :=
  let allowedColumns := getAllowedColumns tableName
  columns.filter (fun col =>
    match sanitizeColumnArg col with
    | .error _ => true
    | .ok _ =>
      match col with
      | some (.str c) =>
        !allowedColumns.isEmpty && !allowedColumns.contains c
          && !RESTRICTED_TABLES.contains tableName
      | _ => false)

/-- The warning loop of lines 186-191: `sanitizeColumnName(filter.column)`
runs OUTSIDE any `try/catch` here, so its exception propagates out of
`validateQuery`. -/
def sanitizeWarnings : List JValue → Except String (List String)
  | [] => .ok []
  | e :: rest =>
    match sanitizeColumnArg (jGet e "column") with
    | .error m => .error m
    | .ok sanitized =>
      let orig := match jGet e "column" with | some (.str s) => s | _ => ""
      match sanitizeWarnings rest with
      | .error m => .error m
      | .ok ws =>
        .ok ((if sanitized ≠ orig then
                ["Column " ++ orig ++ " was sanitized to " ++ sanitized]
              else []) ++ ws)

/-- Aggregation warnings of lines 194-201: a function outside the table's
allowed-aggregates set produces a WARNING, not an error. -/
def aggWarnings (data : JValue) (tname : String) : List String :=
  match jGet data "aggregations" with
  | some (.arr es) =>
    es.filterMap (fun e =>
      let allowed := getAllowedAggregates tname
      match jGet e "function" with
      | some (.str f) =>
        if allowed.contains f then none
        else some ("Aggregation " ++ f ++ " may not be supported for table " ++ tname)
      | _ => some ("Aggregation may not be supported for table " ++ tname))
  | _ => []

/-- The table name the whitelist functions receive; a truthy non-string
table value coerces to something that is never whitelisted, which the empty
string also never is. -/
def jTableName : JValue → String
  | .str s => s
  | _ => ""

def tableNotAccessibleError (tname : String) : ValidationError :=
  { stage := .table_whitelist, message := "Table " ++ tname ++ " is not accessible" }

def invalidColumnsError : ValidationError :=
  { stage := .column_validation, message := "Invalid columns" }

/-- Lines 204-229: the RLS stage (with its abort), the injection scan of the
RAW params, and the final result assembly. -/
def finishStages (rawParams data : JValue) (errors : List ValidationError)
    (stage : ValidationStage) (warnings : List String) (ctx : ValidationContext)
    (abortEarly : Bool) : Except String FullValidationResult :=
  let rlsErrors := validateRLSContext ctx
  if !rlsErrors.isEmpty && abortEarly then
    .ok { success := false, data := some data, stage := .rls_context
          errors := errors ++ rlsErrors, warnings := none }
  else
    let errors3 := errors ++ rlsErrors
    let stage3 := if rlsErrors.isEmpty then stage else ValidationStage.rls_context
    let injErrors := checkSqlInjection rawParams
    let errors4 := errors3 ++ injErrors
    let stage4 := if injErrors.isEmpty then stage3 else ValidationStage.sql_injection
    .ok { success := errors4.isEmpty
          data := if errors4.isEmpty then some data else none
          stage := if errors4.isEmpty then ValidationStage.passed else stage4
          errors := errors4
          warnings := if warnings.isEmpty then none else some warnings }

/-- Lines 159-202: the table-whitelist stage and, under a truthy table, the
column-validation stage (with the throwing warning loop) and the
aggregation-warning loop. -/
def tableAndOn (rawParams data : JValue) (errors0 : List ValidationError)
    (stage0 : ValidationStage) (ctx : ValidationContext) (abortEarly : Bool) :
    Except String FullValidationResult :=
  let tval := jGet data "table"
  if jsTruthyJ tval then
    let tname := jTableName (tval.getD JValue.null)
    let tableFail := !isTableAllowed tname
    if tableFail && abortEarly then
      .ok { success := false, data := some data, stage := .table_whitelist
            errors := errors0 ++ [tableNotAccessibleError tname], warnings := none }
    else
      let errors1 := errors0 ++ (if tableFail then [tableNotAccessibleError tname] else [])
      let stage1 := if tableFail then ValidationStage.table_whitelist else stage0
      let filtersBranch : Except String (List ValidationError × ValidationStage × List String) :=
        match jGet data "filters" with
        | some (.arr es) =>
          let invalid := validateColumnAccessJ tname (es.map (fun e => jGet e "column"))
          let errors2 := errors1 ++ (if invalid.isEmpty then [] else [invalidColumnsError])
          let stage2 :=
            if invalid.isEmpty then stage1 else ValidationStage.column_validation
          match sanitizeWarnings es with
          | .error m => .error m
          | .ok ws => .ok (errors2, stage2, ws)
        | _ => .ok (errors1, stage1, [])
      match filtersBranch with
      | .error m => .error m
      | .ok (errors2, stage2, warns) =>
        finishStages rawParams data errors2 stage2 (warns ++ aggWarnings data tname)
          ctx abortEarly
  else
    finishStages rawParams data errors0 stage0 [] ctx abortEarly

/-- `validateQuery` (lines 123-230).  The result is `Except`-valued because
the sanitize-warning loop can throw; `.ok` carries the structured
`FullValidationResult` of every non-throwing path. -/
def validateQuery (params : JValue) (ctx : ValidationContext) (opts : ValidateOptions) :
    Except String FullValidationResult :=
  let abortEarly := (opts.abortEarly).getD true
  let _stripUnknown := (opts.stripUnknown).getD true
  match parseQueryParams params with
  | .error msgs =>
    if abortEarly then
      .ok { success := false, data := some params, stage := .schema
            errors := msgs.map (fun m => { stage := .schema, message := m })
            warnings := none }
    else
      tableAndOn params params (msgs.map (fun m => { stage := .schema, message := m }))
        .schema ctx abortEarly
  | .ok pq =>
    tableAndOn params (encodeParsed pq) [] .passed ctx abortEarly

/-! ### Chart configurator (`src/unnamed/part_020` and `src/unnamed/part_019`) -/

inductive ChartType where
  | bar | line | area | pie | scatter
deriving DecidableEq, Repr

/-- `inferChartType` (part_020, lines 158-184).  The source's time-series
test reads `row[xAxisField]` twice (as both `prevDate` and `currDate`) and
skips index 0, so it holds exactly when some row OTHER than the first has a
date-parseable x value. -/
def inferChartType (data : List Row) (xAxisField : String) (yAxisFields : List String) :
    ChartType :=
  if yAxisFields.length > 3 then .bar
  else
    let isTimeSeries :=
      data.enum.any (fun p => p.1 ≠ 0 && jsDateValid (rowGet p.2 xAxisField))
    if isTimeSeries then
      (if yAxisFields.length > 1 then .line else .area)
    else if yAxisFields.length == 2 then .scatter
    else .bar

/-- `selectChartType` (part_019, lines 87-99): an explicitly requested type
wins, otherwise the type is inferred (the `dateFields` argument is unused by
the source as well). -/
def selectChartType (requestedType : Option ChartType) (data : List Row)
    (xAxisField : String) (yAxisFields : List String) (_dateFields : List String) :
    ChartType :=
  match requestedType with
  | some t => t
  | none => inferChartType data xAxisField yAxisFields

/-- Spec-side (claim C8 wording): a field is numeric when every row's value
is a number or null. -/
def fieldNumericIn (data : List Row) (f : String) : Bool :=
  data.all (fun row =>
    match rowGet row f with
    | some (.num _) => true
    | some .null => true
    | _ => false)

/-- Spec-side (claim C8 wording): a date-like x-axis — every row's x value is
a string that parses as a valid date, over a nonempty result. -/
def specDateLikeAxis (data : List Row) (x : String) : Bool :=
  !data.isEmpty && data.all (fun row =>
    match rowGet row x with
    | some (.str s) => isoDateLike s
    | _ => false)

/-- The decision order exactly as claim C8 states it: more than 3 y-fields →
bar; date-like x-axis → area (single y-field) / line (multiple); exactly 2
numeric y-fields → scatter; otherwise bar. -/
def claimChartOrder (data : List Row) (x : String) (ys : List String) : ChartType :=
  if ys.length > 3 then .bar
  else if specDateLikeAxis data x then
    (if ys.length = 1 then .area else .line)
  else if ys.length = 2 && ys.all (fieldNumericIn data) then .scatter
  else .bar

/-- The amended decision order, matching the code: the time-series branch
fires only when a row other than the first has a date-parseable x value
(numbers and ISO date strings parse; other strings do not), and the scatter
branch tests only the count of y-fields, not their types. -/
def amendedChartOrder (data : List Row) (x : String) (ys : List String) : ChartType :=
  if ys.length > 3 then .bar
  else if (data.drop 1).any (fun row => jsDateValid (rowGet row x)) then
    (if ys.length > 1 then .line else .area)
  else if ys.length = 2 then .scatter
  else .bar

/-! ### Projections used in theorem statements -/

/-- The (success, stage) view of a non-throwing `validateQuery` run. -/
def vqSuccessStage (e : Except String FullValidationResult) :
    Option (Bool × ValidationStage) :=
  match e with
  | .ok r => some (r.success, r.stage)
  | .error _ => none

/-- The (success, has-warnings) view of a non-throwing `validateQuery` run. -/
def vqSuccessWarn (e : Except String FullValidationResult) : Option (Bool × Bool) :=
  match e with
  | .ok r => some (r.success, r.warnings.isSome)
  | .error _ => none

/-- Whether `validateQuery` threw (propagated an exception). -/
def vqThrew (e : Except String FullValidationResult) : Bool :=
  match e with
  | .error _ => true
  | .ok _ => false

/-- The aggregation results of a successful executor run. -/
def qdAggs (e : Except String QueryResult) : Option (List AggregationResult) :=
  match e with
  | .ok r => some r.aggregations
  | .error _ => none

/-! ### Concrete fixtures for the claim theorems -/

/-- The page size recorded in the pagination metadata of a successful
executor run. -/
def qdPageSize (e : Except String QueryResult) : Option ℕ :=
  match e with
  | .ok r =>
    match r.pagination with
    | some pg => some pg.pageSize
    | none => none
  | .error _ => none

/-- A syntactically valid tenant UUID. -/
def uuidA : String := "aaaaaaaa-aaaa-aaaa-aaaa-aaaaaaaaaaaa"

def ctxGood : ValidationContext := { orgId := uuidA }

def ctxEmpty : ValidationContext := { orgId := "" }

/-- Intent with a sensitive filter column (claim C3). -/
def sensitiveFilterParams : JValue :=
  .obj [("table", .str "customers"),
        ("filters", .arr [.obj [("column", .str "password"),
                                ("operator", .str "eq"),
                                ("value", .str "x")]])]

/-- A schema-malformed intent: `table` is a number (claim C4). -/
def badTableParams : JValue :=
  .obj [("table", .num 5)]

/-- The minimal well-formed intent (claim C4). -/
def minimalCustomers : JValue :=
  .obj [("table", .str "customers")]

/-- Raw intent asking table `tbl` for aggregate `fn` of field `id`
(claim C5). -/
def mkAggParams (tbl : String) (fn : AggFunc) : JValue :=
  .obj [("table", .str tbl),
        ("aggregations", .arr [.obj [("field", .str "id"),
                                     ("function", .str (aggFuncName fn))]])]

/-- The same intent in executor shape (claim C5). -/
def mkAggExecParams (tbl : String) (fn : AggFunc) : QueryDatabaseParams :=
  { table := tbl, aggregations := some [{ field := "id", function := fn }] }

/-- Executor intent of the tenant-isolation scenario (claim C1). -/
def revenueSumParams : QueryDatabaseParams :=
  { table := "customers"
    aggregations := some [{ field := "total_revenue", function := .sum }] }

def row_T1 : Row := [("org_id", .str "T1"), ("total_revenue", .num 100)]

def row_T2 : Row := [("org_id", .str "T2"), ("total_revenue", .num 50)]

/-- A healthy store holding one row of tenant T1 and one row of tenant T2. -/
def twoTenantStore : Store := { rows := [row_T1, row_T2], failing := false }

/-- A store whose execution raises (claim C2). -/
def failingStore : Store := { rows := [], failing := true }

def plainCustomersParams : QueryDatabaseParams := { table := "customers" }

/-- Paginated executor intent requesting `pageSize = 200` (claim C6). -/
def bigPageParams : QueryDatabaseParams :=
  { table := "customers", page := some 1, pageSize := some 200 }

/-- A one-field numeric row (summarizer fixtures). -/
def mkVRow (q : ℚ) : Row := [("v", .num q)]

/-- Five values where exactly the value `3` lies exactly three standard
deviations from the mean of the other four (claim C7 counterexample input). -/
def fiveRows : List Row :=
  [mkVRow (-1), mkVRow (-1), mkVRow 1, mkVRow 1, mkVRow 3]

/-- Ten values where `10` lies exactly three standard deviations from the
mean of ALL ten values and every other value lies within two (claim C7
witness input). -/
def tenRows : List Row :=
  mkVRow 10 :: List.replicate 9 (mkVRow 0)

/-- Claim C7 wording at a values list: the value at index `i` lies exactly
three standard deviations from the (population) mean of the remaining
values. -/
def threeSigmaFromRestB (vs : List ℚ) (i : ℕ) : Bool :=
  match vs[i]? with
  | some v =>
    let rest := vs.eraseIdx i
    decide ((v - qMean rest) ^ 2 = 9 * qVar rest) && decide (0 < qVar rest)
  | none => false

/-- Single-row data set with an ISO-date x value (claim C8 counterexample). -/
def oneDateRow : List Row :=
  [[("d", .str "2024-01-05"), ("a", .num 1)]]

/-- Two rows of non-date strings in `x` plus two non-numeric y fields
(claim C8 counterexample, scatter branch). -/
def twoStringRows : List Row :=
  [[("x", .str "p"), ("u", .str "s"), ("w", .str "t")],
   [("x", .str "q"), ("u", .str "s2"), ("w", .str "t2")]]

/-- Two rows with ISO-date x and two numeric y fields (claim C8 scenario). -/
def twoDateRows : List Row :=
  [[("d", .str "2024-01-01"), ("a", .num 1), ("b", .num 2)],
   [("d", .str "2024-01-02"), ("a", .num 3), ("b", .num 4)]]

/-- One row whose only field is a non-numeric string (claim C10
counterexample). -/
def oneStringRow : List Row :=
  [[("a", .str "x")]]

/-- Two numeric rows (claim C10 witness input). -/
def twoNumRows : List Row :=
  [mkVRow 1, mkVRow 2]

/-! ## Theorems

Shared helper lemmas first, then one theorem per claim (with witnesses and
counterexamples where the claim's status requires them). -/

/-- Guard-style `filterMap` is `filter` then `map`. -/
theorem filterMap_guard_eq {α β : Type} (p : α → Prop) [DecidablePred p] (f : α → β)
    (l : List α) :
    l.filterMap (fun v => if p v then some (f v) else none)
      = (l.filter (fun v => decide (p v))).map f := by
  induction l with
  | nil => rfl
  | cons a l ih =>
    by_cases h : p a <;> simp [List.filterMap_cons, List.filter_cons, h, ih]

/-- Scanning an `enumFrom` with a positive base for entries of nonzero index
is just scanning the underlying list. -/
theorem enumFrom_any_pos {α : Type} (f : α → Bool) :
    ∀ (l : List α) (n : ℕ), n ≠ 0 →
      (l.enumFrom n).any (fun p => p.1 ≠ 0 && f p.2) = l.any f := by
  intro l
  induction l with
  | nil => intro n _; rfl
  | cons a l ih =>
    intro n hn
    simp only [List.enumFrom, List.any_cons, ih (n + 1) (Nat.succ_ne_zero n)]
    simp [hn]

/-- The source's time-series scan (`index === 0` excluded) over `enum` equals
a scan of the tail. -/
theorem enum_any_tail {α : Type} (f : α → Bool) (l : List α) :
    l.enum.any (fun p => p.1 ≠ 0 && f p.2) = (l.drop 1).any f := by
  cases l with
  | nil => rfl
  | cons a l =>
    simp only [List.enum, List.enumFrom, List.any_cons,
      enumFrom_any_pos f l 1 one_ne_zero]
    simp

/-! ### C1 — tenant scoping of the executor -/

/-- C1: the claim states that every query built by `queryDatabase` carries an
unconditional `org_id = tenantId` equality predicate so that returned rows
always belong to the tenant.  The code violates this: the aggregation-capable
builder `queryDatabase` actually delegates to attaches no tenant predicate at
all (`orgCond = none`), and on a store holding one `customers` row for tenant
T1 (`total_revenue = 100`) and one for tenant T2 (`total_revenue = 50`), the
spec scenario intent `sum(total_revenue)` executed for T1 returns 150 — the
sum across BOTH tenants — instead of the tenant-scoped 100. -/
theorem C1_aggregation_path_ignores_tenant :
    (buildAggQuerySpec revenueSumParams).orgCond = none
    ∧ qdAggs (queryDatabase revenueSumParams "T1" twoTenantStore)
        = some [{ field := "total_revenue", value := 150, function := .sum }]
    ∧ qdAggs (queryDatabase revenueSumParams "T1" twoTenantStore)
        ≠ some [{ field := "total_revenue", value := 100, function := .sum }] := by
  refine ⟨rfl, by with_unfolding_all rfl, ?_⟩
  rw [show qdAggs (queryDatabase revenueSumParams "T1" twoTenantStore)
      = some [{ field := "total_revenue", value := 150, function := AggFunc.sum }] from by
    with_unfolding_all rfl]
  with_unfolding_all decide

/-! ### C2 — store-error handling of the executor -/

/-- C2: the claim states that any store error during execution is caught by
`queryDatabase` and converted into an empty `QueryResult`.  The code violates
this: `queryDatabase`'s defined body returns `executeQueryWithAggregations`,
which awaits the store with no enclosing `try/catch` (the catch block
appearing after that function in the source file is orphan, unreachable
code), so the store error propagates to the caller instead of becoming an
empty result. -/
theorem C2_store_error_propagates :
    queryDatabase plainCustomersParams "T1" failingStore = .error "store error"
    ∧ qdAggs (queryDatabase plainCustomersParams "T1" failingStore) = none := by
  exact ⟨rfl, rfl⟩

/-! ### C3 — the validation pipeline can throw -/

/-- C3: the claim states that `validateQuery` always returns a structured
`ValidationResult` and never throws.  The code violates this: the
sanitize-warning loop (part_018, lines 186-191) calls `sanitizeColumnName`
outside any `try/catch`, and `sanitizeColumnName` throws on sensitive column
names, so an intent filtering on column `password` makes `validateQuery`
itself throw (even though `validateColumnAccess` had already caught the same
exception and recorded a column-validation error). -/
theorem C3_sanitize_throws_across_pipeline :
    validateQuery sensitiveFilterParams ctxGood defaultOpts
      = .error "Column password is not accessible"
    ∧ vqThrew (validateQuery sensitiveFilterParams ctxGood defaultOpts) = true := by
  exact ⟨by with_unfolding_all rfl, by with_unfolding_all rfl⟩

/-! ### C4 — stage reported for a missing tenant context -/

/-- A missing or non-UUID `orgId` always yields at least one RLS error. -/
theorem rls_ne_nil (ctx : ValidationContext)
    (h : ctx.orgId = "" ∨ isUuid ctx.orgId = false) :
    validateRLSContext ctx ≠ [] := by
  unfold validateRLSContext
  rcases h with h | h
  · simp [h]
  · by_cases h0 : ctx.orgId = ""
    · simp [h0]
    · simp [h0, h]

/-- With a nonempty RLS error list, every result `finishStages` returns has
`success = false`. -/
theorem finish_fail (rawParams data : JValue) (errors : List ValidationError)
    (stage : ValidationStage) (warnings : List String) (ctx : ValidationContext)
    (abortEarly : Bool) (r : FullValidationResult)
    (h : validateRLSContext ctx ≠ [])
    (he : finishStages rawParams data errors stage warnings ctx abortEarly = .ok r) :
    r.success = false := by
  simp only [finishStages] at he
  split at he
  · cases he; rfl
  · cases he
    have hne : (errors ++ validateRLSContext ctx) ++ checkSqlInjection rawParams ≠ [] := by
      simp only [ne_eq, List.append_eq_nil]
      rintro ⟨⟨-, h2⟩, -⟩
      exact h h2
    show List.isEmpty _ = false
    rw [Bool.eq_false_iff]
    intro h'
    exact hne (List.isEmpty_iff.mp h')

/-- With a nonempty RLS error list, every result `tableAndOn` returns has
`success = false`. -/
theorem tableAndOn_fail (rawParams data : JValue) (errors0 : List ValidationError)
    (stage0 : ValidationStage) (ctx : ValidationContext) (abortEarly : Bool)
    (r : FullValidationResult)
    (h : validateRLSContext ctx ≠ [])
    (he : tableAndOn rawParams data errors0 stage0 ctx abortEarly = .ok r) :
    r.success = false := by
  simp only [tableAndOn] at he
  split at he
  · split at he
    · cases he; rfl
    · split at he
      · exact Except.noConfusion he
      · exact finish_fail _ _ _ _ _ _ _ _ h he
  · exact finish_fail _ _ _ _ _ _ _ _ h he

/-- C4 counterexample: the claim says validation of ANY intent with a
missing `tenantId` fails at the tenant-context stage; but a schema-malformed
intent under the default `abortEarly` returns stage `schema` before the
tenant check ever runs. -/
theorem C4_schema_failure_masks_tenant_stage :
    ctxEmpty.orgId = ""
    ∧ vqSuccessStage (validateQuery badTableParams ctxEmpty defaultOpts)
        = some (false, .schema)
    ∧ ValidationStage.schema ≠ ValidationStage.rls_context := by
  exact ⟨rfl, by with_unfolding_all rfl, by decide⟩

/-- C4 (amended): with a missing or non-UUID `orgId`, validation never
succeeds — every structured result `validateQuery` returns has
`success = false` — and on an intent that passes the earlier stages with no
injection finding (such as the minimal `customers` intent) the reported
stage is exactly the tenant-context stage `rls_context`. -/
theorem C4_missing_tenant_always_fails :
    (∀ (params : JValue) (ctx : ValidationContext) (opts : ValidateOptions)
        (r : FullValidationResult),
      ctx.orgId = "" ∨ isUuid ctx.orgId = false →
      validateQuery params ctx opts = .ok r → r.success = false)
    ∧ (∀ ctx : ValidationContext, ctx.orgId = "" ∨ isUuid ctx.orgId = false →
        vqSuccessStage (validateQuery minimalCustomers ctx defaultOpts)
          = some (false, .rls_context)) := by
  constructor
  · intro params ctx opts r h he
    have hrls := rls_ne_nil ctx h
    simp only [validateQuery] at he
    split at he
    · split at he
      · cases he; rfl
      · exact tableAndOn_fail _ _ _ _ _ _ _ hrls he
    · exact tableAndOn_fail _ _ _ _ _ _ _ hrls he
  · intro ctx h
    obtain ⟨o, u, ro⟩ := ctx
    have hred : validateQuery minimalCustomers ⟨o, u, ro⟩ defaultOpts
        = finishStages minimalCustomers (encodeParsed { table := "customers" })
            [] .passed [] ⟨o, u, ro⟩ true := by
      with_unfolding_all rfl
    rw [hred]
    have h' : o = "" ∨ isUuid o = false := h
    rcases h' with h0 | hu
    · subst h0
      with_unfolding_all rfl
    · by_cases h0 : o = ""
      · subst h0
        with_unfolding_all rfl
      · have hr : validateRLSContext ⟨o, u, ro⟩
            = [{ stage := .rls_context, message := "Invalid organization ID format" }] := by
          unfold validateRLSContext
          simp [h0, hu]
        simp only [finishStages, hr]
        simp [vqSuccessStage]

/-- Witness for C4: the empty tenant context on the minimal `customers`
intent fails at stage `rls_context`. -/
theorem C4_missing_tenant_witness :
    (ctxEmpty.orgId = "" ∨ isUuid ctxEmpty.orgId = false)
    ∧ vqSuccessStage (validateQuery minimalCustomers ctxEmpty defaultOpts)
        = some (false, .rls_context) :=
  ⟨Or.inl rfl, C4_missing_tenant_always_fails.2 ctxEmpty (Or.inl rfl)⟩

/-! ### C5 — disallowed aggregate functions -/

/-- C5 counterexample: the claim says an aggregation whose function is
outside the resource's allowed set is rejected by the pipeline and
re-checked by the executor.  In fact `sum` is not in the allowed set of
`organizations`, yet the pipeline ACCEPTS the intent
(`success = true`, stage `passed`) — the mismatch only produces a warning —
and the executor computes the `SUM` projection anyway. -/
theorem C5_disallowed_aggregate_accepted :
    (getAllowedAggregates "organizations").contains "sum" = false
    ∧ vqSuccessStage (validateQuery (mkAggParams "organizations" .sum) ctxGood defaultOpts)
        = some (true, .passed)
    ∧ qdAggs (queryDatabase (mkAggExecParams "organizations" .sum) uuidA
        { rows := [[("id", .num 4)]], failing := false })
        = some [{ field := "id", value := 4, function := .sum }] := by
  refine ⟨by decide, by with_unfolding_all rfl, by with_unfolding_all rfl⟩

/-- C5 (amended): for every whitelisted table and every aggregate function
outside that table's allowed set, the pipeline still accepts the intent
(`success = true`) and only records a warning, and the executor's builder
projects the requested aggregate unchanged, never consulting the allowed
set. -/
theorem C5_amended_warning_not_rejection :
    ∀ (tbl : String) (fn : AggFunc),
      tableEnum.contains tbl = true →
      (getAllowedAggregates tbl).contains (aggFuncName fn) = false →
      vqSuccessWarn (validateQuery (mkAggParams tbl fn) ctxGood defaultOpts)
        = some (true, true)
      ∧ (buildAggQuerySpec (mkAggExecParams tbl fn)).aggSelects
          = [{ field := "id", function := fn }] := by
  intro tbl fn h1 h2
  have h1' : tbl ∈ tableEnum := by simpa using h1
  fin_cases h1' <;> cases fn <;> revert h2 <;> with_unfolding_all decide

/-- Witness for C5: `sum` on `organizations` is accepted with a warning and
projected by the executor. -/
theorem C5_amended_witness :
    (tableEnum.contains "organizations" = true
      ∧ (getAllowedAggregates "organizations").contains (aggFuncName .sum) = false)
    ∧ (vqSuccessWarn (validateQuery (mkAggParams "organizations" .sum) ctxGood defaultOpts)
        = some (true, true)
      ∧ (buildAggQuerySpec (mkAggExecParams "organizations" .sum)).aggSelects
          = [{ field := "id", function := .sum }]) :=
  ⟨⟨by decide, by decide⟩,
    C5_amended_warning_not_rejection "organizations" .sum (by decide) (by decide)⟩

/-! ### C6 — pageSize clamping and the hasNextPage invariant -/

/-- C6 counterexample: the claim says EVERY paginated execution by the Query
Executor clamps a requested `pageSize > 100` to exactly 100; but the
aggregation-capable path that `queryDatabase` actually runs applies the
requested `pageSize = 200` unclamped, both as the query limit and in the
returned pagination metadata. -/
theorem C6_aggregation_path_unclamped :
    (buildAggQuerySpec bigPageParams).limit = some 200
    ∧ (buildAggQuerySpec bigPageParams).limit ≠ some 100
    ∧ qdPageSize (queryDatabase bigPageParams "T1" { rows := [], failing := false })
        = some 200 := by
  refine ⟨rfl, by decide, by with_unfolding_all rfl⟩

/-- C6 (amended): `executePaginatedQuery` does clamp any requested
`pageSize > 100` to exactly 100, and `calculatePagination` always reports
`hasNextPage` iff `page < ⌈totalRows / pageSize⌉`; but the aggregation path
used by `queryDatabase` applies the requested `pageSize` with no clamp. -/
theorem C6_amended_pagination :
    (∀ (params : QueryDatabaseParams) (orgId : String) (ps : ℕ),
      params.pageSize = some ps → 100 < ps →
      (buildPaginatedSpec params orgId).limit = some 100)
    ∧ (∀ totalRows page pageSize : ℕ, 0 < pageSize →
        ((calculatePagination totalRows page pageSize).hasNextPage = true
          ↔ page < (totalRows + pageSize - 1) / pageSize))
    ∧ (∀ (params : QueryDatabaseParams) (page ps : ℕ),
        params.page = some page → params.pageSize = some ps → page ≠ 0 → ps ≠ 0 →
        (buildAggQuerySpec params).limit = some ps) := by
  refine ⟨?_, ?_, ?_⟩
  · intro params orgId ps hps h
    simp only [buildPaginatedSpec, paginatedPageSize, hps, Option.getD_some]
    congr 1
    exact Nat.min_eq_right h.le
  · intro totalRows page pageSize _
    simp [calculatePagination]
  · intro params page ps hpage hps h1 h2
    simp [buildAggQuerySpec, jsTruthyNat, hpage, hps, h1, h2]

/-- Witness for C6: `pageSize = 200` clamps to 100 on the paginated path,
stays 200 on the aggregation path, and `hasNextPage` matches the ceiling
formula at `totalRows = 120`, `page = 2`, `pageSize = 50`. -/
theorem C6_amended_witness :
    ((bigPageParams.pageSize = some 200 ∧ 100 < 200)
      ∧ (buildPaginatedSpec bigPageParams "T1").limit = some 100)
    ∧ (0 < 50
      ∧ ((calculatePagination 120 2 50).hasNextPage = true ↔ 2 < (120 + 50 - 1) / 50))
    ∧ (buildAggQuerySpec bigPageParams).limit = some 200 :=
  ⟨⟨⟨rfl, by decide⟩, C6_amended_pagination.1 bigPageParams "T1" 200 rfl (by decide)⟩,
   ⟨by decide, C6_amended_pagination.2.1 120 2 50 (by decide)⟩,
   C6_amended_pagination.2.2 bigPageParams 1 200 rfl rfl (by decide) (by decide)⟩

/-! ### C7 — anomaly detection and the three-sigma data set -/

/-- C7 counterexample: the claim says a data set in which exactly one value
lies exactly 3 standard deviations from the mean of the REMAINING values is
flagged as exactly one anomaly with deviation about 3.  On
`[-1, -1, 1, 1, 3]` the value 3 is exactly 3 rest-standard-deviations from
the rest's mean (0 ± 3·1) and is the only such value, yet `detectAnomalies`
— which computes mean and deviation over ALL rows — flags NOTHING: the
overall z-score of 3 is `3·√(4/14) ≈ 1.6 < 2`. -/
theorem C7_rest_based_three_sigma_unflagged :
    (List.range (jsNums fiveRows "v").length).countP
        (fun i => threeSigmaFromRestB (jsNums fiveRows "v") i) = 1
    ∧ detectAnomalies fiveRows "v" = [] := by
  exact ⟨by with_unfolding_all rfl, by with_unfolding_all rfl⟩

/-- C7 (amended): the detector computes mean and standard deviation over ALL
rows and flags z-scores above 2; hence a data set whose UNIQUE
beyond-2-sigma value lies exactly 3 standard deviations from the all-rows
mean yields exactly one flagged anomaly whose reported deviation is exactly
3 (stated via its square, `deviationSq = 9`). -/
theorem C7_amended_three_sigma_over_all_rows :
    ∀ (data : List Row) (field : String),
      3 ≤ (jsNums data field).length →
      0 < qVar (jsNums data field) →
      (jsNums data field).countP (fun v =>
          decide (4 * qVar (jsNums data field)
            < (v - qMean (jsNums data field)) ^ 2)) = 1 →
      (∀ v ∈ jsNums data field,
          4 * qVar (jsNums data field) < (v - qMean (jsNums data field)) ^ 2 →
          (v - qMean (jsNums data field)) ^ 2 = 9 * qVar (jsNums data field)) →
      (detectAnomalies data field).length = 1
      ∧ ∀ a ∈ detectAnomalies data field, a.deviationSq = 9 := by
  intro data field h3 hvar hcount heq
  have hred : detectAnomalies data field
      = (jsNums data field).filterMap (fun v =>
          if 0 < qVar (jsNums data field)
              ∧ 4 * qVar (jsNums data field) < (v - qMean (jsNums data field)) ^ 2 then
            some { value := v
                   deviationSq :=
                     (v - qMean (jsNums data field)) ^ 2 / qVar (jsNums data field)
                   rangeMean := qMean (jsNums data field)
                   rangeVar := qVar (jsNums data field) }
          else none) := by
    simp only [detectAnomalies]
    rw [if_neg (by omega)]
    exact (List.filterMap_filterMap _ _ _).symm
  have hcong : detectAnomalies data field
      = ((jsNums data field).filter (fun v =>
          decide (4 * qVar (jsNums data field)
            < (v - qMean (jsNums data field)) ^ 2))).map (fun v =>
          { value := v
            deviationSq := (v - qMean (jsNums data field)) ^ 2 / qVar (jsNums data field)
            rangeMean := qMean (jsNums data field)
            rangeVar := qVar (jsNums data field) }) := by
    rw [hred, ← filterMap_guard_eq]
    apply List.filterMap_congr
    intro v _
    simp [hvar]
  constructor
  · rw [hcong, List.length_map, ← List.countP_eq_length_filter]
    exact hcount
  · intro a ha
    rw [hcong, List.mem_map] at ha
    obtain ⟨v, hvmem, rfl⟩ := ha
    rw [List.mem_filter] at hvmem
    obtain ⟨hv, hp⟩ := hvmem
    have hp' := of_decide_eq_true hp
    have h9 := heq v hv hp'
    show (v - qMean (jsNums data field)) ^ 2 / qVar (jsNums data field) = 9
    rw [h9]
    exact mul_div_cancel_right₀ 9 (ne_of_gt hvar)

/-- Witness for C7: on `[10, 0 × 9]` (all-rows mean 1, variance 9) the value
10 is the unique beyond-2-sigma value and lies exactly 3 sigma out; exactly
one anomaly is flagged, with squared deviation 9. -/
theorem C7_amended_witness :
    (3 ≤ (jsNums tenRows "v").length
      ∧ 0 < qVar (jsNums tenRows "v")
      ∧ (jsNums tenRows "v").countP (fun v =>
          decide (4 * qVar (jsNums tenRows "v")
            < (v - qMean (jsNums tenRows "v")) ^ 2)) = 1
      ∧ (∀ v ∈ jsNums tenRows "v",
          4 * qVar (jsNums tenRows "v") < (v - qMean (jsNums tenRows "v")) ^ 2 →
          (v - qMean (jsNums tenRows "v")) ^ 2 = 9 * qVar (jsNums tenRows "v")))
    ∧ ((detectAnomalies tenRows "v").length = 1
      ∧ ∀ a ∈ detectAnomalies tenRows "v", a.deviationSq = 9) :=
  ⟨⟨by with_unfolding_all decide, by with_unfolding_all decide,
    by with_unfolding_all decide, by with_unfolding_all decide⟩,
   C7_amended_three_sigma_over_all_rows tenRows "v"
     (by with_unfolding_all decide) (by with_unfolding_all decide)
     (by with_unfolding_all decide) (by with_unfolding_all decide)⟩

/-! ### C8 — chart-type inference order -/

/-- C8 counterexample: the claimed decision order fails on the code in two
places.  A single-row result with an ISO-date x value is date-like by the
claim's own definition, so the claim infers `area`; the code infers `bar`
because its time-series test skips the first row.  And two non-numeric
y-fields over a non-date x-axis should fall through to `bar` per the claim
(which requires 2 NUMERIC fields for scatter); the code infers `scatter`
from the count alone. -/
theorem C8_inference_deviates_from_claimed_order :
    (claimChartOrder oneDateRow "d" ["a"] = .area
      ∧ selectChartType none oneDateRow "d" ["a"] [] = .bar)
    ∧ (claimChartOrder twoStringRows "x" ["u", "w"] = .bar
      ∧ selectChartType none twoStringRows "x" ["u", "w"] [] = .scatter) := by
  exact ⟨⟨by decide, by decide⟩, ⟨by decide, by decide⟩⟩

/-- C8 (amended): with no explicitly requested type, inference follows the
claimed order EXCEPT that the date-like branch requires a date-parseable x
value in some row other than the first (numbers also parse), and the scatter
branch tests only that there are exactly 2 y-fields, regardless of type; in
particular the ISO-date scenario with two numeric y-fields still infers
`line`. -/
theorem C8_amended_inference_order :
    (∀ (data : List Row) (x : String) (ys : List String),
      selectChartType none data x ys [] = amendedChartOrder data x ys)
    ∧ selectChartType none twoDateRows "d" ["a", "b"] [] = .line := by
  constructor
  · intro data x ys
    simp only [selectChartType, inferChartType, amendedChartOrder]
    rw [enum_any_tail (fun row => jsDateValid (rowGet row x)) data]
    by_cases h1 : ys.length > 3
    · simp [h1]
    · by_cases h2 : (data.drop 1).any (fun row => jsDateValid (rowGet row x)) = true
      · simp [h1, h2]
      · by_cases h3 : ys.length = 2 <;> simp [h1, h2, h3]
  · decide

/-! ### C9 — tone never changes the computed statistics -/

/-- C9: for every summary intent, result set and pair of tones, the
statistics computed by `summarizeData` — the trend analysis, the comparison
sums/difference/verdict, the flagged anomalies with their z-scores and
expected ranges, and the summary-mode insights — are identical across the
two runs; tone selects only the phrasing. -/
theorem C9_tone_invariant_statistics :
    ∀ (p : SummarizeParams) (data : List Row) (t1 t2 : Tone),
      (summarizeData { p with tone := t1 } data).stats
        = (summarizeData { p with tone := t2 } data).stats := by
  intro p data t1 t2
  by_cases hD : data.isEmpty <;> by_cases hN : (numericFieldsOf data).isEmpty <;>
    cases hst : p.summaryType <;> simp [summarizeData, hD, hN, hst]

/-! ### C10 — tiny result sets in anomaly mode -/

/-- C10 counterexample: the claim says that whenever fewer than 3 rows carry
a numeric primary-field value, the rendered summary is the fixed
no-anomalies sentence for every tone.  A one-row result whose only field is
a non-numeric string satisfies the premise (0 numeric values), but
`summarizeData` returns the earlier no-numeric-fields message instead of the
fixed sentence. -/
theorem C10_tiny_data_not_always_fixed_sentence :
    (jsNums oneStringRow "a").length < 3
    ∧ detectAnomalies oneStringRow "a" = []
    ∧ (summarizeData { summaryType := .anomaly, focusAreas := some ["a"]
                       tone := .neutral } oneStringRow).text
        ≠ [.lit anomalyFixedSentence] := by
  refine ⟨by decide, by with_unfolding_all rfl, by with_unfolding_all decide⟩

/-- C10 (amended): whenever fewer than 3 rows carry a numeric value of the
primary field, `detectAnomalies` returns the empty list without computing
any statistics, and — provided the result set is nonempty and has at least
one numeric field, so that the anomaly branch is actually reached — the
rendered summary is the fixed no-anomalies sentence for every tone. -/
theorem C10_amended_fixed_sentence :
    ∀ (data : List Row) (field : String) (focus : List String) (tone : Tone),
      (jsNums data field).length < 3 →
      data.isEmpty = false →
      (numericFieldsOf data).isEmpty = false →
      detectAnomalies data field = []
      ∧ (summarizeData { summaryType := .anomaly, focusAreas := some (field :: focus)
                         tone := tone } data).text = [.lit anomalyFixedSentence] := by
  intro data field focus tone h3 hD hN
  have hdet : detectAnomalies data field = [] := by
    simp only [detectAnomalies]
    rw [if_pos h3]
  refine ⟨hdet, ?_⟩
  simp [summarizeData, hD, hN, hdet, generateAnomalySummary]

/-- Witness for C10: two numeric rows (fewer than 3 values) flag nothing and
render the fixed sentence. -/
theorem C10_amended_witness :
    ((jsNums twoNumRows "v").length < 3
      ∧ twoNumRows.isEmpty = false
      ∧ (numericFieldsOf twoNumRows).isEmpty = false)
    ∧ (detectAnomalies twoNumRows "v" = []
      ∧ (summarizeData { summaryType := .anomaly, focusAreas := some ["v"]
                         tone := .actionable } twoNumRows).text
          = [.lit anomalyFixedSentence]) :=
  ⟨⟨by decide, by decide, by decide⟩,
   C10_amended_fixed_sentence twoNumRows "v" [] .actionable
     (by decide) (by decide) (by decide)⟩

end AIDash
